import Mathlib

/-!
Verification of the autoposting subsystem of the topgg Rust SDK
(`src/autoposter/mod.rs`, `src/autoposter/serenity_impl.rs`,
`src/autoposter/twilight_impl.rs`), shallowly embedded in Lean 4.

Machine integers (`usize`, `u64`) are modelled as `Nat`; the server counts and
guild-ID sets involved never approach overflow territory in any statement below,
so no modular reduction is needed. Tokio synchronisation primitives are modelled
by their observable state: a `Semaphore` by its available-permit count, an
`RwLock`/`Mutex` cell by its contents (the adapters' critical sections are pure
in-memory mutations, so each event handler is a state transformer).
-/

namespace Topgg

/-- The `Stats` struct of `src/bot.rs`: after the v0 API deprecations its only
live field is `server_count: Option<usize>`. -/
structure Stats where
  server_count : Option Nat
deriving DecidableEq, Repr

/-- The `From<usize> for Stats` impl (via `Stats::from_count`): wraps the count
in `Some`. -/
def Stats.fromCount (server_count : Nat) : Stats :=
  { server_count := some server_count }

/-- The `SharedStats` struct of `src/autoposter/mod.rs`: a
`Semaphore` (modelled by its available-permit count) plus an `RwLock<Stats>`
(modelled by its contents). -/
structure SharedStats where
  sem : Nat
  stats : Stats
deriving DecidableEq, Repr

/-- `SharedStats::new`: zero permits, `Stats::from(0)` inside. -/
def SharedStats.new : SharedStats :=
  { sem := 0, stats := Stats.fromCount 0 }

/-- The `SharedStatsGuard` struct: a reference to the semaphore (modelled by the
permit count it sees) and the write-locked `Stats`. -/
structure SharedStatsGuard where
  sem : Nat
  guard : Stats
deriving DecidableEq, Repr

/-- `SharedStats::write`: hands out a guard over the semaphore and the locked
`Stats`. -/
def SharedStats.write (s : SharedStats) : SharedStatsGuard :=
  { sem := s.sem, guard := s.stats }

/-- `SharedStatsGuard::replace`: overwrites the wrapped `Stats` wholesale. -/
def SharedStatsGuard.replace (g : SharedStatsGuard) (other : Stats) : SharedStatsGuard :=
  { g with guard := other }

/-- `SharedStatsGuard::set_server_count`: sets `server_count` to `Some n`. -/
def SharedStatsGuard.set_server_count (g : SharedStatsGuard) (server_count : Nat) :
    SharedStatsGuard :=
  { g with guard := { g.guard with server_count := some server_count } }

/-- `SharedStatsGuard::set_shard_count`: deprecated, its body is empty. -/
def SharedStatsGuard.set_shard_count (g : SharedStatsGuard) (_shard_count : Nat) :
    SharedStatsGuard :=
  g

/-- The `Drop` impl for `SharedStatsGuard`: if the semaphore currently has no
available permit, add one; otherwise do nothing. -/
def SharedStatsGuard.dropGuard (g : SharedStatsGuard) : SharedStatsGuard :=
  if g.sem < 1 then { g with sem := g.sem + 1 } else g

/-- Releasing the guard at end of scope: the `Drop` impl runs, then the
semaphore and `Stats` are again owned by the `SharedStats`. -/
def SharedStatsGuard.release (g : SharedStatsGuard) : SharedStats :=
  let g2 := g.dropGuard
  { sem := g2.sem, stats := g2.guard }

/-- `SharedStats::wait`: `self.sem.acquire().await.unwrap().forget()` suspends
until a permit is available, then consumes it permanently. `none` models the
suspended (blocking) case. -/
def SharedStats.wait (s : SharedStats) : Option SharedStats :=
  if 1 ≤ s.sem then some { s with sem := s.sem - 1 } else none

/-- The mutating methods callable on a held `SharedStatsGuard`. -/
inductive GuardOp
  | replaceOp (other : Stats)
  | setServerCount (server_count : Nat)
  | setShardCount (shard_count : Nat)
deriving DecidableEq, Repr

/-- Dispatch of a `GuardOp` to the corresponding guard method. -/
def SharedStatsGuard.applyOp (g : SharedStatsGuard) : GuardOp → SharedStatsGuard
  | .replaceOp other => g.replace other
  | .setServerCount n => g.set_server_count n
  | .setShardCount n => g.set_shard_count n

/-- One acquire-and-release cycle of `SharedStats::write()`: take the guard,
run a sequence of guard method calls, drop the guard. -/
def SharedStats.writeCycle (s : SharedStats) (ops : List GuardOp) : SharedStats :=
  (ops.foldl SharedStatsGuard.applyOp s.write).release

/-- A sequence of acquire-and-release cycles. -/
def SharedStats.applyWrites (s : SharedStats) (cycles : List (List GuardOp)) : SharedStats :=
  cycles.foldl SharedStats.writeCycle s

/-- The fragment of twilight's gateway `Event` enum that
`src/autoposter/twilight_impl.rs` inspects: `Ready` carries the guild list
(only the ids matter, obtained via `guild.id.get()`), `GuildCreate` and
`GuildDelete` carry one guild id each; every other variant is ignored. Guild
ids (`u64`) are modelled as `Nat`. -/
inductive TwilightEvent
  | ready (guilds : List Nat)
  | guildCreate (id : Nat)
  | guildDelete (id : Nat)
  | otherEvent
deriving DecidableEq, Repr

/-- The `Twilight` struct of `src/autoposter/twilight_impl.rs`:
a `Mutex<HashSet<u64>>` guild-id cache (modelled as a `Finset Nat`) and an
`RwLock<usize>` server count (modelled by its contents). -/
structure Twilight where
  cache : Finset Nat
  server_count : Nat
deriving DecidableEq

/-- `Twilight::new`: empty cache, zero server count. -/
def Twilight.new : Twilight :=
  { cache := ∅, server_count := 0 }

/-- `Twilight::handle`, as a state transformer. The second component records
whether the handler wrote the `server_count` cell (in the source, whether the
branch taking the `server_count` write lock executed): `HashSet::insert`
returns true exactly when the id was newly inserted, and `HashSet::remove`
returns true exactly when the id was present. On `Ready` the cache is rebuilt
from the guild list and the count set to `cache.len()`. -/
def Twilight.handle (t : Twilight) : TwilightEvent → Twilight × Bool
  | .ready guilds =>
      let cache := guilds.toFinset
      ({ cache := cache, server_count := cache.card }, true)
  | .guildCreate id =>
      if id ∈ t.cache then (t, false)
      else
        let cache := insert id t.cache
        ({ cache := cache, server_count := cache.card }, true)
  | .guildDelete id =>
      if id ∈ t.cache then
        let cache := t.cache.erase id
        ({ cache := cache, server_count := cache.card }, true)
      else (t, false)
  | .otherEvent => (t, false)

/-- The `Handler` impl for `Twilight`: `server_count(&self)` exposes the
`RwLock<usize>` cell to the autoposting loop. -/
def Twilight.handlerServerCount (t : Twilight) : Nat :=
  t.server_count

/-- The fragment of serenity's `FullEvent` enum that
`src/autoposter/serenity_impl.rs` inspects in membership-tracking
(non-`serenity-cached`) mode: `Ready` carries the guild list of
`data_about_bot.guilds` (only `GuildId`s matter), `GuildCreate` carries
`guild.id`, `GuildDelete` carries `incomplete.id`; every other variant is
ignored. `GuildId`s are modelled as `Nat`. -/
inductive SerenityEvent
  | ready (guilds : List Nat)
  | guildCreate (id : Nat)
  | guildDelete (id : Nat)
  | otherEvent
deriving DecidableEq, Repr

/-- The `Serenity` struct of `src/autoposter/serenity_impl.rs` in
membership-tracking mode: a `Mutex<Cache>` whose `guilds: HashSet<GuildId>`
is modelled as a `Finset Nat`, plus a `SharedStats`. -/
structure Serenity where
  cache : Finset Nat
  stats : SharedStats
deriving DecidableEq

/-- `Serenity::new`: empty guild cache, fresh `SharedStats`. -/
def Serenity.new : Serenity :=
  { cache := ∅, stats := SharedStats.new }

/-- `handle_ready`: takes the stats write guard, calls
`set_server_count(guilds.len())`, rebuilds the guild cache from the list, and
releases the guard (whose `Drop` impl sets the pending-signal permit). -/
def Serenity.handle_ready (s : Serenity) (guilds : List Nat) : Serenity :=
  { cache := guilds.toFinset,
    stats := ((s.stats.write).set_server_count guilds.length).release }

/-- `handle_guild_create` in membership-tracking mode: locks the cache and, if
`insert` actually added the id, performs a `SharedStats` write cycle setting
the count to the new cache size. The second component records whether a
`SharedStats` write happened. -/
def Serenity.handle_guild_create (s : Serenity) (guild_id : Nat) : Serenity × Bool :=
  if guild_id ∈ s.cache then (s, false)
  else
    let cache := insert guild_id s.cache
    ({ cache := cache,
       stats := ((s.stats.write).set_server_count cache.card).release }, true)

/-- `handle_guild_delete` in membership-tracking mode: locks the cache and, if
`remove` actually removed the id, performs a `SharedStats` write cycle setting
the count to the new cache size. The second component records whether a
`SharedStats` write happened. -/
def Serenity.handle_guild_delete (s : Serenity) (guild_id : Nat) : Serenity × Bool :=
  if guild_id ∈ s.cache then
    let cache := s.cache.erase guild_id
    ({ cache := cache,
       stats := ((s.stats.write).set_server_count cache.card).release }, true)
  else (s, false)

/-- `Serenity::handle`: dispatch over the `FullEvent` match in the
`serenity_handler!` expansion. The second component records whether a
`SharedStats` write happened. -/
def Serenity.handle (s : Serenity) : SerenityEvent → Serenity × Bool
  | .ready guilds => (s.handle_ready guilds, true)
  | .guildCreate id => s.handle_guild_create id
  | .guildDelete id => s.handle_guild_delete id
  | .otherEvent => (s, false)

/-- A guild-membership change event, common to both adapters: the claimable
interleavings of guild-added / guild-removed notifications. -/
inductive MembershipEvent
  | add (id : Nat)
  | remove (id : Nat)
deriving DecidableEq, Repr

/-- Interpretation of a membership event as a twilight gateway event. -/
def MembershipEvent.toTwilight : MembershipEvent → TwilightEvent
  | .add id => .guildCreate id
  | .remove id => .guildDelete id

/-- Interpretation of a membership event as a serenity gateway event. -/
def MembershipEvent.toSerenity : MembershipEvent → SerenityEvent
  | .add id => .guildCreate id
  | .remove id => .guildDelete id

/-- A full resync (`Ready` with guild list `L`) followed by an arbitrary
interleaving of add/remove events, on the `Twilight` adapter. -/
def Twilight.run (L : List Nat) (evs : List MembershipEvent) : Twilight :=
  evs.foldl (fun t e => (t.handle e.toTwilight).1) (Twilight.new.handle (.ready L)).1

/-- A full resync (`Ready` with guild list `L`) followed by an arbitrary
interleaving of add/remove events, on the `Serenity` adapter. -/
def Serenity.run (L : List Nat) (evs : List MembershipEvent) : Serenity :=
  evs.foldl (fun s e => (s.handle e.toSerenity).1) (Serenity.new.handle (.ready L)).1

/-- Modelled from the spec: the typed failure of a post-stats attempt
(`crate::Error`; the file `src/error.rs` is referenced from `src/lib.rs` but
is not among the provided sources). The spec's taxonomy: unauthorized,
not-found, rate-limited with a retry-after hint, internal/transport error. -/
inductive PostError
  | unauthorized
  | notFound
  | ratelimit (retry_after : Nat)
  | internalServerError
  | transport
deriving DecidableEq, Repr

/-- The payload of the autoposter's result channel: `crate::Result<()>`, the
outcome of one `post_stats` attempt. -/
abbrev PostOutcome := Except PostError Unit

/-- The `core::time::Duration` argument of `Autoposter::new`: whole seconds
plus a sub-second nanosecond part (valid when `nanos < 10^9`). -/
structure Duration where
  secs : Nat
  nanos : Nat
deriving DecidableEq, Repr

/-- `Duration::as_secs`: the whole-second part. -/
def Duration.as_secs (d : Duration) : Nat :=
  d.secs

/-- The total length of the duration in nanoseconds, used to state "shorter
than 900 seconds" exactly. -/
def Duration.toNanos (d : Duration) : Nat :=
  d.secs * 1000000000 + d.nanos

/-- The observable fields of an `Autoposter` after construction: the
`Option`-wrapped receiving endpoint of the unbounded result channel, modelled
as the queue of not-yet-received outcomes. (The `handler` Arc and the
`JoinHandle` are modelled separately.) -/
structure AutoposterState where
  receiver : Option (List PostOutcome)

/-- Construction effects of `Autoposter::new`, tracked in program order: the
state counts how many background tasks `tokio::task::spawn` has started, and
an exception models a panic. -/
abbrev NewM := ExceptT String (StateM Nat)

/-- The `assert!` macro: panics with the given message when the condition is
false. -/
def assertPanic (cond : Prop) [Decidable cond] (msg : String) : NewM Unit :=
  if cond then pure () else throw msg

/-- `tokio::task::spawn`: starts one background task. -/
def spawnTask : NewM Unit :=
  ExceptT.lift (modify fun n => n + 1)

/-- The body of `Autoposter::new` in program order: assert the minimum
interval, then spawn the posting task, then return the struct with the
receiver present. -/
def Autoposter.newM (interval : Duration) : NewM AutoposterState := do
  assertPanic (900 ≤ interval.as_secs) "The interval mustn't be shorter than 15 minutes."
  spawnTask
  pure { receiver := some [] }

/-- Running `Autoposter::new` from zero spawned tasks: the construction
outcome (ok, or panic message) paired with the number of background tasks
spawned. -/
def Autoposter.new (interval : Duration) : Except String AutoposterState × Nat :=
  (Autoposter.newM interval).run.run 0

/-- The simple Handler shape of the spec: a single mutable server-count cell
(what `Twilight::server_count` exposes through its `Handler` impl). -/
structure SimpleHandler where
  server_count : Nat
deriving DecidableEq, Repr

/-- Modelled from the spec: one iteration of the autoposting loop for a simple
Handler. The loop body in `src/autoposter/mod.rs` covers only the shared-stats
shape (it starts with `handler.stats().wait().await`); the branch for simple
handlers — operate purely on the fixed interval, read the cell directly, never
suspend on a dirty signal — is described in spec sections 4.2 and 4.3 but its
code is not among the provided sources. The result is the server count posted
this iteration; `none` would mean the iteration suspended on a dirty signal,
which per the spec never happens for the simple shape. -/
def simpleLoopPost (h : SimpleHandler) : Option Nat :=
  some h.server_count

/-- One iteration of the background loop of `Autoposter::new` as an
environment-indexed step: the iteration computed `outcome` from
`client.post_stats(&stats).await`, and `receiverAlive` says whether the
channel's receiving side still existed when `sender.send` ran. `loopRun`
returns the list of outcomes actually delivered to the channel and whether
the loop hit its `break` within the given schedule. -/
def loopRun : List (PostOutcome × Bool) → List PostOutcome × Bool
  | [] => ([], false)
  | (outcome, receiverAlive) :: rest =>
      if receiverAlive then
        let r := loopRun rest
        (outcome :: r.1, r.2)
      else ([], true)

/-- `Autoposter::recv`: `expect`s the receiver to still be present (else
panics with the source's message), then awaits the next outcome. The queue
model returns the head (and the dequeued state). -/
def Autoposter.recv (a : AutoposterState) : Except String (Option PostOutcome × AutoposterState) :=
  match a.receiver with
  | none => Except.error
      "receiver is already taken from the receiver() method. please call recv() directly from the receiver."
  | some queue => Except.ok (queue.head?, { receiver := some queue.tail })

/-- `Autoposter::receiver`: `Option::take`s the endpoint out, panicking with
the source's message when it was already taken. -/
def Autoposter.takeReceiver (a : AutoposterState) :
    Except String (List PostOutcome × AutoposterState) :=
  match a.receiver with
  | none => Except.error "receiver() can only be called once."
  | some queue => Except.ok (queue, { receiver := none })

/-- The status of the spawned background task's `JoinHandle`. -/
inductive TaskStatus
  | running
  | aborted
deriving DecidableEq, Repr

/-- The system as seen by the client capability: the background task's status
and how many `post_stats` calls have reached the client. -/
structure AutoposterSys where
  task : TaskStatus
  clientCalls : Nat
deriving DecidableEq, Repr

/-- One scheduling step of the cooperative runtime: the background loop's
`client.post_stats(&stats).await` executes — reaching the client — only while
the task has not been aborted (an aborted tokio task is never polled again). -/
inductive SysStep : AutoposterSys → AutoposterSys → Prop
  | postStats (s : AutoposterSys) (h : s.task = .running) :
      SysStep s { task := s.task, clientCalls := s.clientCalls + 1 }

/-- The `Drop` impl for `Autoposter`: `self.thread.abort()`. -/
def Autoposter.dropAbort (s : AutoposterSys) : AutoposterSys :=
  { s with task := .aborted }

/-- Finitely many scheduling steps. -/
inductive SysSteps : AutoposterSys → AutoposterSys → Prop
  | refl (s : AutoposterSys) : SysSteps s s
  | tail {s t u : AutoposterSys} (h1 : SysSteps s t) (h2 : SysStep t u) : SysSteps s u

end Topgg

namespace Topgg

theorem SharedStatsGuard.applyOp_sem (g : SharedStatsGuard) (op : GuardOp) :
    (g.applyOp op).sem = g.sem := by
  cases op <;> rfl

theorem foldl_applyOp_sem (ops : List GuardOp) (g : SharedStatsGuard) :
    (ops.foldl SharedStatsGuard.applyOp g).sem = g.sem := by
  induction ops generalizing g with
  | nil => rfl
  | cons op rest ih => rw [List.foldl_cons, ih, SharedStatsGuard.applyOp_sem]

theorem SharedStats.writeCycle_sem (s : SharedStats) (ops : List GuardOp) :
    (s.writeCycle ops).sem = if s.sem < 1 then s.sem + 1 else s.sem := by
  unfold SharedStats.writeCycle SharedStatsGuard.release SharedStatsGuard.dropGuard
  simp only [foldl_applyOp_sem, SharedStats.write]
  split <;> simp [foldl_applyOp_sem]

theorem SharedStats.writeCycle_sem_le (s : SharedStats) (ops : List GuardOp)
    (h : s.sem ≤ 1) : (s.writeCycle ops).sem = 1 := by
  rw [SharedStats.writeCycle_sem]
  split <;> omega

theorem SharedStats.applyWrites_sem_le (cycles : List (List GuardOp)) (s : SharedStats)
    (h : s.sem ≤ 1) : (s.applyWrites cycles).sem ≤ 1 := by
  induction cycles generalizing s with
  | nil => exact h
  | cons c rest ih =>
      exact ih _ (by rw [SharedStats.writeCycle_sem]; split <;> omega)

theorem SharedStats.applyWrites_sem_one (cycles : List (List GuardOp)) (s : SharedStats)
    (h : s.sem = 1) : (s.applyWrites cycles).sem = 1 := by
  induction cycles generalizing s with
  | nil => exact h
  | cons c rest ih =>
      exact ih _ (SharedStats.writeCycle_sem_le _ _ (by omega))

/-- C1: starting from zero pending-signal permits, any sequence of N ≥ 1
acquire-and-release cycles of `SharedStats::write()` leaves exactly one permit
available, the permit count never exceeds one along the way, and a single
subsequent `wait()` consumes exactly that permit without blocking, returning
the count to zero. -/
theorem C1_write_coalescing (s : SharedStats) (cycles : List (List GuardOp))
    (hs : s.sem = 0) (hne : cycles ≠ []) :
    (s.applyWrites cycles).sem = 1 ∧
    (∀ k : Nat, (s.applyWrites (cycles.take k)).sem ≤ 1) ∧
    (∃ s2, (s.applyWrites cycles).wait = some s2 ∧ s2.sem = 0) := by
  obtain ⟨c, rest, rfl⟩ := List.exists_cons_of_ne_nil hne
  have hone : (s.applyWrites (c :: rest)).sem = 1 := by
    show ((s.writeCycle c).applyWrites rest).sem = 1
    exact SharedStats.applyWrites_sem_one _ _
      (SharedStats.writeCycle_sem_le _ _ (by omega))
  refine ⟨hone, ?_, ?_⟩
  · intro k
    cases k with
    | zero => simp only [List.take_zero, SharedStats.applyWrites, List.foldl_nil]; omega
    | succ k =>
        show ((s.writeCycle c).applyWrites (rest.take k)).sem ≤ 1
        exact SharedStats.applyWrites_sem_le _ _
          (by rw [SharedStats.writeCycle_sem_le _ _ (by omega)])
  · refine ⟨{ s.applyWrites (c :: rest) with sem := 0 }, ?_, rfl⟩
    unfold SharedStats.wait
    rw [hone]
    simp

theorem SharedStatsGuard.dropGuard_guard (g : SharedStatsGuard) :
    g.dropGuard.guard = g.guard := by
  unfold SharedStatsGuard.dropGuard
  split <;> rfl

theorem SharedStatsGuard.release_stats (g : SharedStatsGuard) :
    g.release.stats = g.guard := by
  unfold SharedStatsGuard.release
  simp [SharedStatsGuard.dropGuard_guard]

theorem Twilight.handle_count_eq_card (t : Twilight) (e : TwilightEvent)
    (h : t.server_count = t.cache.card) :
    ((t.handle e).1).server_count = ((t.handle e).1).cache.card := by
  cases e with
  | ready guilds => rfl
  | guildCreate id =>
      by_cases hid : id ∈ t.cache <;> simp [Twilight.handle, hid, h]
  | guildDelete id =>
      by_cases hid : id ∈ t.cache <;> simp [Twilight.handle, hid, h]
  | otherEvent => exact h

theorem Twilight.foldl_count_eq_card (evs : List MembershipEvent) (t : Twilight)
    (h : t.server_count = t.cache.card) :
    (evs.foldl (fun t2 e => (t2.handle e.toTwilight).1) t).server_count
      = (evs.foldl (fun t2 e => (t2.handle e.toTwilight).1) t).cache.card := by
  induction evs generalizing t with
  | nil => exact h
  | cons e rest ih => exact ih _ (Twilight.handle_count_eq_card _ _ h)

theorem Serenity.handle_mem_count (s : Serenity) (e : MembershipEvent)
    (h : s.stats.stats.server_count = some s.cache.card) :
    ((s.handle e.toSerenity).1).stats.stats.server_count
      = some (((s.handle e.toSerenity).1).cache.card) := by
  cases e with
  | add id =>
      by_cases hid : id ∈ s.cache <;>
        simp [Serenity.handle, MembershipEvent.toSerenity, Serenity.handle_guild_create,
          hid, h, SharedStatsGuard.release_stats, SharedStats.write,
          SharedStatsGuard.set_server_count]
  | remove id =>
      by_cases hid : id ∈ s.cache <;>
        simp [Serenity.handle, MembershipEvent.toSerenity, Serenity.handle_guild_delete,
          hid, h, SharedStatsGuard.release_stats, SharedStats.write,
          SharedStatsGuard.set_server_count]

theorem Serenity.foldl_mem_count (evs : List MembershipEvent) (s : Serenity)
    (h : s.stats.stats.server_count = some s.cache.card) :
    (evs.foldl (fun s2 e => (s2.handle e.toSerenity).1) s).stats.stats.server_count
      = some ((evs.foldl (fun s2 e => (s2.handle e.toSerenity).1) s).cache.card) := by
  induction evs generalizing s with
  | nil => exact h
  | cons e rest ih => exact ih _ (Serenity.handle_mem_count _ _ h)

/-- Counterexample for C2 as stated: a full resync whose guild list carries a
duplicate id (`[7, 7]`) followed by no further events leaves the Serenity
adapter reporting a server count of 2 while its guild-id cache has
cardinality 1. -/
theorem C2_count_correctness_cex :
    ¬ ((Serenity.run [7, 7] []).stats.stats.server_count
        = some ((Serenity.run [7, 7] []).cache.card)) := by
  decide

/-- C2 (amended): after a full resync and any finite interleaving of
guild-added / guild-removed events, the Twilight adapter's server count equals
the cardinality of its guild-id cache, unconditionally; the Serenity adapter's
reported count equals its cache cardinality provided the resync guild list is
free of duplicate ids (the Serenity ready handler sets the count to the list's
length rather than the cache's size). -/
theorem C2_count_correctness (L : List Nat) (evs : List MembershipEvent) :
    (Twilight.run L evs).server_count = (Twilight.run L evs).cache.card ∧
    (L.Nodup →
      (Serenity.run L evs).stats.stats.server_count
        = some ((Serenity.run L evs).cache.card)) := by
  constructor
  · exact Twilight.foldl_count_eq_card evs _ rfl
  · intro hnd
    refine Serenity.foldl_mem_count evs _ ?_
    show ((Serenity.new.stats.write).set_server_count L.length).release.stats.server_count
      = some (L.toFinset.card)
    rw [SharedStatsGuard.release_stats]
    simp [SharedStatsGuard.set_server_count, List.toFinset_card_of_nodup hnd]

/-- Witness for C2 at a concrete input: resync with guilds `[1, 2]`, then
add 3, add 3 again, remove 1. -/
theorem C2_count_correctness_witness :
    ((Twilight.run [1, 2] [.add 3, .add 3, .remove 1]).server_count
        = (Twilight.run [1, 2] [.add 3, .add 3, .remove 1]).cache.card) ∧
    ((Serenity.run [1, 2] [.add 3, .add 3, .remove 1]).stats.stats.server_count
        = some ((Serenity.run [1, 2] [.add 3, .add 3, .remove 1]).cache.card)) :=
  ⟨(C2_count_correctness [1, 2] [.add 3, .add 3, .remove 1]).1,
   (C2_count_correctness [1, 2] [.add 3, .add 3, .remove 1]).2 (by decide)⟩

/-- C3: handling a guild-added event whose id is already cached, or a
guild-removed event whose id is absent, leaves each adapter's state (cache,
reported count, and — for Serenity — the pending-signal permit inside its
`SharedStats`) entirely unchanged and performs no write (the Bool component is
false, so no permit can arise); consequently handling the same add (or remove)
event twice equals handling it once, the second handling being a no-op. -/
theorem C3_duplicate_events_noop (t : Twilight) (s : Serenity) (id : Nat) :
    (id ∈ t.cache → t.handle (.guildCreate id) = (t, false)) ∧
    (id ∉ t.cache → t.handle (.guildDelete id) = (t, false)) ∧
    ((t.handle (.guildCreate id)).1.handle (.guildCreate id)
      = ((t.handle (.guildCreate id)).1, false)) ∧
    ((t.handle (.guildDelete id)).1.handle (.guildDelete id)
      = ((t.handle (.guildDelete id)).1, false)) ∧
    (id ∈ s.cache → s.handle (.guildCreate id) = (s, false)) ∧
    (id ∉ s.cache → s.handle (.guildDelete id) = (s, false)) ∧
    ((s.handle (.guildCreate id)).1.handle (.guildCreate id)
      = ((s.handle (.guildCreate id)).1, false)) ∧
    ((s.handle (.guildDelete id)).1.handle (.guildDelete id)
      = ((s.handle (.guildDelete id)).1, false)) := by
  refine ⟨?_, ?_, ?_, ?_, ?_, ?_, ?_, ?_⟩
  · intro hid; simp [Twilight.handle, hid]
  · intro hid; simp [Twilight.handle, hid]
  · by_cases hid : id ∈ t.cache <;> simp [Twilight.handle, hid]
  · by_cases hid : id ∈ t.cache <;> simp [Twilight.handle, hid]
  · intro hid; simp [Serenity.handle, Serenity.handle_guild_create, hid]
  · intro hid; simp [Serenity.handle, Serenity.handle_guild_delete, hid]
  · by_cases hid : id ∈ s.cache <;>
      simp [Serenity.handle, Serenity.handle_guild_create, hid]
  · by_cases hid : id ∈ s.cache <;>
      simp [Serenity.handle, Serenity.handle_guild_delete, hid]

/-- Witness for C3 at a concrete input: adapters holding `{5}`, with the
already-present id 5 and the absent id 9. -/
theorem C3_duplicate_events_noop_witness :
    (Twilight.mk {5} 1).handle (.guildCreate 5) = ((Twilight.mk {5} 1), false) ∧
    (Twilight.mk {5} 1).handle (.guildDelete 9) = ((Twilight.mk {5} 1), false) ∧
    (Serenity.mk {5} SharedStats.new).handle (.guildCreate 5)
      = ((Serenity.mk {5} SharedStats.new), false) ∧
    (Serenity.mk {5} SharedStats.new).handle (.guildDelete 9)
      = ((Serenity.mk {5} SharedStats.new), false) :=
  ⟨(C3_duplicate_events_noop (Twilight.mk {5} 1) (Serenity.mk {5} SharedStats.new) 5).1
      (by decide),
   (C3_duplicate_events_noop (Twilight.mk {5} 1) (Serenity.mk {5} SharedStats.new) 9).2.1
      (by decide),
   (C3_duplicate_events_noop (Twilight.mk {5} 1) (Serenity.mk {5} SharedStats.new) 5).2.2.2.2.1
      (by decide),
   (C3_duplicate_events_noop (Twilight.mk {5} 1) (Serenity.mk {5} SharedStats.new) 9).2.2.2.2.2.1
      (by decide)⟩

/-- Counterexample for C6 as stated: on a ready event carrying the duplicated
guild list `[1, 1]`, the Serenity adapter sets the server count to 2 (the
list's length) while its cache has size 1 (the number of distinct ids), so the
count does not equal the cache's size. -/
theorem C6_ready_cex :
    ¬ ((Serenity.new.handle (.ready [1, 1])).1.stats.stats.server_count
        = some ((Serenity.new.handle (.ready [1, 1])).1.cache.card)) := by
  decide

/-- C6 (amended): on a full-membership (ready) event carrying guild list `L`,
both adapters populate their guild-id cache with the ids of `L`; the Twilight
adapter sets its server count to the cache's size (the number of distinct ids
in `L`), while the Serenity adapter sets it to the length of `L`, which equals
the cache's size exactly when `L` is free of duplicate ids. -/
theorem C6_ready_populates (t : Twilight) (s : Serenity) (L : List Nat) :
    ((t.handle (.ready L)).1.cache = L.toFinset ∧
     (t.handle (.ready L)).1.server_count = L.toFinset.card) ∧
    ((s.handle (.ready L)).1.cache = L.toFinset ∧
     (s.handle (.ready L)).1.stats.stats.server_count = some L.length) ∧
    (L.Nodup →
      (s.handle (.ready L)).1.stats.stats.server_count
        = some ((s.handle (.ready L)).1.cache.card)) := by
  refine ⟨⟨rfl, rfl⟩, ⟨rfl, ?_⟩, ?_⟩
  · show ((s.stats.write).set_server_count L.length).release.stats.server_count = some L.length
    rw [SharedStatsGuard.release_stats]
    rfl
  · intro hnd
    show ((s.stats.write).set_server_count L.length).release.stats.server_count
      = some (L.toFinset.card)
    rw [SharedStatsGuard.release_stats]
    simp [SharedStatsGuard.set_server_count, List.toFinset_card_of_nodup hnd]

/-- Witness for C6 at a concrete input: ready with the duplicate-free guild
list `[1, 2, 3]`. -/
theorem C6_ready_populates_witness :
    ((Twilight.new.handle (.ready [1, 2, 3])).1.cache = ([1, 2, 3] : List Nat).toFinset ∧
     (Twilight.new.handle (.ready [1, 2, 3])).1.server_count
       = ([1, 2, 3] : List Nat).toFinset.card) ∧
    ((Serenity.new.handle (.ready [1, 2, 3])).1.cache = ([1, 2, 3] : List Nat).toFinset ∧
     (Serenity.new.handle (.ready [1, 2, 3])).1.stats.stats.server_count = some 3) ∧
    ((Serenity.new.handle (.ready [1, 2, 3])).1.stats.stats.server_count
       = some ((Serenity.new.handle (.ready [1, 2, 3])).1.cache.card)) :=
  ⟨(C6_ready_populates Twilight.new Serenity.new [1, 2, 3]).1,
   (C6_ready_populates Twilight.new Serenity.new [1, 2, 3]).2.1,
   (C6_ready_populates Twilight.new Serenity.new [1, 2, 3]).2.2 (by decide)⟩

/-- C10: `SharedStatsGuard::set_shard_count` has an empty body — it leaves the
wrapped `Stats` (including `server_count`) untouched, does not alter the
semaphore state it references, and releasing the guard afterwards behaves
exactly as releasing the untouched guard: a pure no-op. -/
theorem C10_set_shard_count_noop (g : SharedStatsGuard) (shard_count : Nat) :
    g.set_shard_count shard_count = g ∧
    (g.set_shard_count shard_count).guard.server_count = g.guard.server_count ∧
    (g.set_shard_count shard_count).sem = g.sem ∧
    (g.set_shard_count shard_count).release = g.release :=
  ⟨rfl, rfl, rfl, rfl⟩

theorem Autoposter.new_eval (d : Duration) :
    Autoposter.new d = if 900 ≤ d.as_secs
      then (Except.ok { receiver := some [] }, 1)
      else (Except.error "The interval mustn't be shorter than 15 minutes.", 0) := by
  unfold Autoposter.new Autoposter.newM assertPanic spawnTask
  split <;> rfl

/-- C4: `Autoposter::new` panics (with the source's assertion message) for
every interval strictly shorter than 900 seconds, and the panic happens before
`tokio::task::spawn` runs, so zero background tasks are started; for every
interval of at least 900 seconds construction succeeds, spawns exactly one
background task, and holds the result-channel receiver. -/
theorem C4_min_interval (d : Duration) (hd : d.nanos < 1000000000) :
    (d.toNanos < 900 * 1000000000 →
      Autoposter.new d
        = (Except.error "The interval mustn't be shorter than 15 minutes.", 0)) ∧
    (900 * 1000000000 ≤ d.toNanos →
      Autoposter.new d = (Except.ok { receiver := some [] }, 1)) := by
  constructor
  · intro h
    have hlt : ¬ (900 ≤ d.as_secs) := by
      unfold Duration.toNanos at h
      unfold Duration.as_secs
      omega
    rw [Autoposter.new_eval, if_neg hlt]
  · intro h
    have hge : 900 ≤ d.as_secs := by
      unfold Duration.toNanos at h
      unfold Duration.as_secs
      omega
    rw [Autoposter.new_eval, if_pos hge]

/-- Witness for C4 at concrete inputs: 899.999999999 seconds panics with no
task spawned; 900 seconds exactly constructs with one task spawned. -/
theorem C4_min_interval_witness :
    ((Duration.mk 899 999999999).nanos < 1000000000 ∧
      (Duration.mk 899 999999999).toNanos < 900 * 1000000000 ∧
      Autoposter.new (Duration.mk 899 999999999)
        = (Except.error "The interval mustn't be shorter than 15 minutes.", 0)) ∧
    ((Duration.mk 900 0).nanos < 1000000000 ∧
      900 * 1000000000 ≤ (Duration.mk 900 0).toNanos ∧
      Autoposter.new (Duration.mk 900 0) = (Except.ok { receiver := some [] }, 1)) :=
  ⟨⟨by decide, by decide,
      (C4_min_interval (Duration.mk 899 999999999) (by decide)).1 (by decide)⟩,
   ⟨by decide, by decide,
      (C4_min_interval (Duration.mk 900 0) (by decide)).2 (by decide)⟩⟩

/-- C5: for a simple Handler — one exposing only a mutable server-count cell,
as the `Handler` impl for `Twilight` does — every iteration of the autoposting
loop proceeds directly to the post (never `none`, i.e. never suspended on a
dirty signal) and posts exactly the value read from the cell. -/
theorem C5_simple_handler_interval_only (t : Twilight) (h : SimpleHandler) :
    simpleLoopPost h = some h.server_count ∧
    simpleLoopPost { server_count := t.handlerServerCount } = some t.server_count :=
  ⟨rfl, rfl⟩

/-- C7: over any finite schedule of loop iterations — each yielding a
post-stats outcome and the liveness of the channel's receiving side — the
outcomes delivered to the result channel are exactly those of the iterations
up to the first one whose receiver was dropped; the loop has hit its `break`
exactly when some iteration found the receiver dropped; and an iteration with
a live receiver pushes its outcome (success or typed failure alike) and
continues the loop. -/
theorem C7_loop_outcomes (sched : List (PostOutcome × Bool)) (out : PostOutcome) :
    (loopRun sched).1 = (sched.takeWhile fun e => e.2).map (fun e => e.1) ∧
    ((loopRun sched).2 = true ↔ ∃ e ∈ sched, e.2 = false) ∧
    loopRun ((out, true) :: sched) = (out :: (loopRun sched).1, (loopRun sched).2) := by
  refine ⟨?_, ?_, ?_⟩
  · induction sched with
    | nil => rfl
    | cons e rest ih =>
        obtain ⟨o, alive⟩ := e
        cases alive <;> simp [loopRun, ih]
  · induction sched with
    | nil => simp [loopRun]
    | cons e rest ih =>
        obtain ⟨o, alive⟩ := e
        cases alive <;> simp [loopRun, ih]
  · simp [loopRun]

/-- C8: while the receiver is still present, `recv` yields the next outcome
and `receiver` moves the endpoint out; after the endpoint has been taken, both
`recv` and a second `receiver` call panic (with the source's `expect`
messages). -/
theorem C8_receiver_once (a : AutoposterState) (q : List PostOutcome)
    (h : a.receiver = some q) :
    Autoposter.recv a = Except.ok (q.head?, { receiver := some q.tail }) ∧
    ∃ a2, Autoposter.takeReceiver a = Except.ok (q, a2) ∧ a2.receiver = none ∧
      (∃ msg, Autoposter.recv a2 = Except.error msg) ∧
      (∃ msg, Autoposter.takeReceiver a2 = Except.error msg) := by
  obtain ⟨r⟩ := a
  have hr : r = some q := h
  subst hr
  exact ⟨rfl, ⟨{ receiver := none }, rfl, rfl, ⟨_, rfl⟩, ⟨_, rfl⟩⟩⟩

/-- Witness for C8 at a concrete input: an autoposter whose channel holds one
successful outcome. -/
theorem C8_receiver_once_witness :
    (AutoposterState.mk (some [Except.ok ()])).receiver = some [Except.ok ()] ∧
    (Autoposter.recv (AutoposterState.mk (some [Except.ok ()]))
        = Except.ok (([Except.ok ()] : List PostOutcome).head?,
            { receiver := some ([Except.ok ()] : List PostOutcome).tail }) ∧
      ∃ a2, Autoposter.takeReceiver (AutoposterState.mk (some [Except.ok ()]))
              = Except.ok ([Except.ok ()], a2) ∧
        a2.receiver = none ∧
        (∃ msg, Autoposter.recv a2 = Except.error msg) ∧
        (∃ msg, Autoposter.takeReceiver a2 = Except.error msg)) :=
  ⟨rfl, C8_receiver_once (AutoposterState.mk (some [Except.ok ()])) [Except.ok ()] rfl⟩

theorem SysSteps.frozen_of_aborted {v w : AutoposterSys} (hs : SysSteps v w)
    (hv : v.task = .aborted) : w = v := by
  induction hs with
  | refl => rfl
  | tail h1 h2 ih =>
      obtain rfl := ih
      cases h2 with
      | postStats ht => rw [hv] at ht; simp at ht

/-- C9: dropping the `Autoposter` aborts the background task, and from the
dropped state no scheduling step can reach the client: however many steps the
runtime takes afterwards, the client-call count is exactly what it was at the
drop and the task stays aborted. -/
theorem C9_drop_cancels (s u : AutoposterSys)
    (h : SysSteps (Autoposter.dropAbort s) u) :
    u = Autoposter.dropAbort s ∧ u.clientCalls = s.clientCalls ∧ u.task = .aborted := by
  have hu := SysSteps.frozen_of_aborted h rfl
  exact ⟨hu, by rw [hu]; rfl, by rw [hu]; rfl⟩

/-- Witness for C9 at a concrete input: an autoposter dropped after three
client calls, with the empty run of subsequent steps. -/
theorem C9_drop_cancels_witness :
    (Autoposter.dropAbort (AutoposterSys.mk .running 3)).clientCalls = 3 ∧
    (Autoposter.dropAbort (AutoposterSys.mk .running 3)).task = .aborted :=
  ⟨(C9_drop_cancels (AutoposterSys.mk .running 3) _
      (SysSteps.refl (Autoposter.dropAbort (AutoposterSys.mk .running 3)))).2.1,
   (C9_drop_cancels (AutoposterSys.mk .running 3) _
      (SysSteps.refl (Autoposter.dropAbort (AutoposterSys.mk .running 3)))).2.2⟩

/-- Witness for C1 at a concrete input: two write cycles from a fresh
`SharedStats`, then one `wait`. -/
theorem C1_write_coalescing_witness :
    (SharedStats.new.applyWrites [[GuardOp.setServerCount 3], [GuardOp.setServerCount 4]]).sem
      = 1 ∧
    (∀ k : Nat,
      (SharedStats.new.applyWrites
        ([[GuardOp.setServerCount 3], [GuardOp.setServerCount 4]].take k)).sem ≤ 1) ∧
    (∃ s2,
      (SharedStats.new.applyWrites
        [[GuardOp.setServerCount 3], [GuardOp.setServerCount 4]]).wait = some s2 ∧
      s2.sem = 0) :=
  C1_write_coalescing SharedStats.new _ rfl (by simp)

end Topgg
